import Mathlib

/-!
Verification development for the Hyperliquid copy-trading agent.

The embedded code is the agent entry point (src/src/index.ts: the main
function, its poll loop, its shutdown handler, and the prototype override of
TradeExecutor.syncWithLeader at the bottom of the file) together with the
configuration module (src/unnamed/part_000: normalizeEnvironment and
loadConfig). Stateful and event-driven behaviour is embedded as explicit
traces of service calls; JavaScript numbers arising from Number(...) are
embedded as rationals extended with NaN.
-/

namespace CopyTradingAgent

/-- JavaScript number produced by the Number(...) conversion in the
configuration module: either an actual (rational) value or NaN. -/
inductive JNum where
  | nan : JNum
  | num : ℚ → JNum
  deriving Repr, DecidableEq, Inhabited

/-- Truth of the JavaScript comparison x >= 0 for a JNum: false for NaN
(every comparison with NaN is false in JavaScript). -/
def JNum.isNonneg : JNum → Bool
  | JNum.nan => false
  | JNum.num q => decide (0 ≤ q)

/-- Value of a list of decimal digit characters read left to right. -/
def decDigitsVal (cs : List Char) : ℕ :=
  cs.foldl (fun acc c => acc * 10 + (c.toNat - 48)) 0

/-- Unsigned decimal literal of JavaScript: digits with an optional dot and
further digits, at least one digit in total (Number accepts both "1." and
".5"). Returns none on any other shape. -/
def parseUnsignedDec (cs : List Char) : Option ℚ :=
  let intPart := cs.takeWhile Char.isDigit
  let rest := cs.drop intPart.length
  match rest with
  | [] => if intPart.isEmpty then none else some (decDigitsVal intPart : ℚ)
  | '.' :: fracPart =>
      if fracPart.all Char.isDigit && !(intPart.isEmpty && fracPart.isEmpty) then
        some ((decDigitsVal intPart : ℚ) +
          (decDigitsVal fracPart : ℚ) / ((10 : ℚ) ^ fracPart.length))
      else none
  | _ => none

/-- Signed decimal literal: an optional leading sign before the unsigned
part. -/
def parseSignedDec (cs : List Char) : Option ℚ :=
  match cs with
  | '-' :: rest => (parseUnsignedDec rest).map Neg.neg
  | '+' :: rest => parseUnsignedDec rest
  | _ => parseUnsignedDec cs

/-- Model of the JavaScript String.prototype.trim: drop whitespace from both
ends, written over the character list so it evaluates by reduction. -/
def jsTrim (s : String) : String :=
  String.mk (((s.toList.dropWhile Char.isWhitespace).reverse.dropWhile
    Char.isWhitespace).reverse)

/-- Model of the JavaScript String.prototype.toLowerCase, written over the
character list so it evaluates by reduction. -/
def jsToLower (s : String) : String :=
  String.mk (s.toList.map Char.toLower)

/-- Model of the JavaScript Number(string) conversion on the fragment the
configuration module exercises: surrounding whitespace is ignored, the empty
string converts to 0, a signed decimal literal converts to its value, and
every other string converts to NaN. -/
def jsNumber (s : String) : JNum :=
  let t := jsTrim s
  if t = "" then JNum.num 0
  else
    match parseSignedDec t.toList with
    | some q => JNum.num q
    | none => JNum.nan

/-- Embedding of normalizeEnvironment (src/unnamed/part_000, lines 32-40).
The argument is the raw environment string, undefined embedded as none. In
JavaScript the guard is the falsiness test !raw, which is also true for the
empty string, hence the extra branch. -/
def normalizeEnvironment (raw : Option String) : String :=
  match raw with
  | none => "main"
  | some s =>
    if s = "" then "main"
    else
      let v := jsTrim (jsToLower s)
      if v = "testnet" then "testnet" else "main"

/-- The process environment: a string-keyed map, an unset variable reading as
undefined (none). -/
abbrev Env := String → Option String

/-- JavaScript falsiness of a possibly-undefined string: true exactly when
the value is undefined or the empty string. -/
def falsyStr : Option String → Bool
  | none => true
  | some s => decide (s = "")

/-- Embedding of the RiskConfig record (src/unnamed/part_000, lines 6-13). -/
structure RiskConfig where
  minPositionUsd : JNum
  copyRatio : JNum
  maxLeverage : JNum
  maxNotionalUsd : JNum
  inverse : Bool
  maxSlippageBps : JNum
  deriving Repr, DecidableEq, Inhabited

/-- Embedding of the CopyTradingConfig record (src/unnamed/part_000, lines
15-26). -/
structure CopyTradingConfig where
  environment : String
  leaderAddress : String
  followerPrivateKey : String
  followerVaultAddress : Option String
  syncIntervalMs : JNum
  reconciliationIntervalMs : JNum
  refreshAccountIntervalMs : JNum
  websocketAggregateFills : Bool
  risk : RiskConfig
  deriving Repr, DecidableEq, Inhabited

/-- Embedding of loadConfig (src/unnamed/part_000, lines 42-109). The two
falsiness guards throw, embedded as Except.error with the thrown message;
otherwise the returned record is built exactly as in the source. The ??
defaults become Option.getD, and .getD "" on the two required fields only
strips the Option, which the guards have shown to be a nonempty some. The
default of RECONCILIATION_INTERVAL_MS is String(syncIntervalMs) re-parsed by
Number, which gives back syncIntervalMs, embedded as the same expression.
The trailing console.log calls are pure output and have no embedding. -/
def loadConfig (env : Env) : Except String CopyTradingConfig :=
  if falsyStr (env "LEADER_ADDRESS") then
    Except.error "LEADER_ADDRESS is required"
  else if falsyStr (env "FOLLOWER_PRIVATE_KEY") then
    Except.error "FOLLOWER_PRIVATE_KEY is required"
  else
    Except.ok
      { environment := normalizeEnvironment (env "HYPERLIQUID_ENVIRONMENT")
        leaderAddress := (env "LEADER_ADDRESS").getD ""
        followerPrivateKey := (env "FOLLOWER_PRIVATE_KEY").getD ""
        followerVaultAddress := env "FOLLOWER_VAULT_ADDRESS"
        syncIntervalMs := jsNumber ((env "SYNC_INTERVAL_MS").getD "60000")
        reconciliationIntervalMs :=
          match env "RECONCILIATION_INTERVAL_MS" with
          | some s => jsNumber s
          | none => jsNumber ((env "SYNC_INTERVAL_MS").getD "60000")
        refreshAccountIntervalMs :=
          jsNumber ((env "REFRESH_ACCOUNT_INTERVAL_MS").getD "300000")
        websocketAggregateFills :=
          ((env "WEBSOCKET_AGGREGATE_FILLS").getD "true") == "true"
        risk :=
          { minPositionUsd := jsNumber ((env "MIN_POSITION_USD").getD "40")
            copyRatio := jsNumber ((env "COPY_RATIO").getD "1")
            maxLeverage := jsNumber ((env "MAX_LEVERAGE").getD "25")
            maxNotionalUsd := jsNumber ((env "MAX_NOTIONAL_USD").getD "1000000")
            inverse := ((env "INVERSE_COPY").getD "false") == "true"
            maxSlippageBps :=
              jsNumber ((env "MAX_SLIPPAGE_BPS").getD
                ((env "SLIPPAGE_BPS").getD "50")) } }

/-- Outcome of process startup as far as configuration loading decides it. -/
inductive StartupOutcome where
  | exited : ℕ → StartupOutcome
  | running : CopyTradingConfig → StartupOutcome
  deriving Repr, DecidableEq

/-- The startup behaviour of main (src/src/index.ts, lines 31-123) on the
configuration path: loadConfig is called inside the try block, and any error
it throws reaches the catch at lines 117-120, which logs and calls
process.exit(1); when loadConfig returns, startup proceeds with the loaded
configuration. -/
def mainStartup (env : Env) : StartupOutcome :=
  match loadConfig env with
  | Except.error _ => StartupOutcome.exited 1
  | Except.ok c => StartupOutcome.running c

/-- Position in a state store: signed size (positive = long) and entry
price. -/
structure Position where
  signedSize : ℚ
  entryPrice : ℚ
  deriving Repr, DecidableEq

/-- The two in-memory state stores visible to TradeExecutor: leader and
follower positions, each an association list from asset to position. -/
structure EngineState where
  leaderState : List (String × Position)
  followerState : List (String × Position)
  deriving Repr, DecidableEq

/-- An order submitted to the exchange. -/
structure Order where
  asset : String
  signedSize : ℚ
  deriving Repr, DecidableEq

/-- Receiver-relevant facts for a call of the patched syncWithLeader: whether
the receiver has a logger field with an info function (the TradeExecutor in
main is constructed with a log option, so the patched body, which reads
this.logger, may find nothing there), and whether the logger.info call
throws when made. -/
structure TradeExecutorReceiver where
  hasLoggerInfo : Bool
  loggerInfoThrows : Bool
  deriving Repr, DecidableEq

/-- Result of one syncWithLeader call: how the returned promise settles
(Except.ok () is resolution with undefined), the state stores after the
call, the orders submitted during the call, and whether the disabled-notice
log line was emitted. -/
structure SyncResult where
  result : Except String Unit
  finalState : EngineState
  orders : List Order
  loggedNoOpNotice : Bool
  deriving Repr

/-- Embedding of the prototype override installed at the bottom of
src/src/index.ts (lines 130-141): after module initialization every call of
TradeExecutor.syncWithLeader runs this body. The body is one try block that
emits a log line when the receiver has a logger with an info function, a
catch that swallows any logging error, and a plain return. The loaded
configuration (held by the executor as risk) is passed to record that the
body never consults it. -/
def syncWithLeaderPatched (_cfg : CopyTradingConfig)
    (recv : TradeExecutorReceiver) (s : EngineState) : SyncResult :=
  if recv.hasLoggerInfo then
    if recv.loggerInfoThrows then
      { result := Except.ok (), finalState := s, orders := [],
        loggedNoOpNotice := false }
    else
      { result := Except.ok (), finalState := s, orders := [],
        loggedNoOpNotice := true }
  else
    { result := Except.ok (), finalState := s, orders := [],
      loggedNoOpNotice := false }

/-- Observable calls made by the code in src/src/index.ts, used to state
ordering and framing properties of main, the poll loop, the fill callback
and the shutdown handler. -/
inductive Action where
  | logInfo : String → Action
  | logWarn : String → Action
  | logError : String → Action
  | subscriptionsStartCall : Action
  | reconcileOnceCall : Action
  | reconcilerStartCall : Action
  | pollLoopStartCall : Action
  | syncWithLeaderCall : Action
  | syncAssetCall : String → Action
  | applyFillToLeader : String → Action
  | subscriptionsStopCall : Action
  | reconcilerStopCall : Action
  | wsTransportCloseCall : Action
  | delayCall : Action
  | processExit : ℕ → Action
  deriving Repr, DecidableEq, BEq

/-- A leader fill event as delivered by SubscriptionService. -/
structure FillEvent where
  asset : String
  signedSize : ℚ
  price : ℚ
  deriving Repr, DecidableEq

/-- The caller-supplied callback registered with SubscriptionService in main
(src/src/index.ts, line 75): the zero-parameter closure
() => tradeExecutor.syncWithLeader(). It ignores the fill event it reacts to
and its body is the single call of syncWithLeader. -/
def mainFillCallback (_event : FillEvent) : List Action :=
  [Action.syncWithLeaderCall]

/-- The service calls main performs on the successful startup path
(src/src/index.ts, lines 80-101), in program order: each of the first two is
awaited to completion before the next line runs, then the periodic
reconciliation loop is started, then the poll loop is kicked off. -/
def mainStartupCalls : List Action :=
  [Action.subscriptionsStartCall, Action.reconcileOnceCall,
   Action.reconcilerStartCall, Action.pollLoopStartCall]

/-- One iteration of the poll loop (src/src/index.ts, lines 92-99), given how
the awaited syncWithLeader call settles: the call, the catch handler logging
on rejection, then the awaited delay before the next iteration. -/
def pollLoopIteration (syncOutcome : Except String Unit) : List Action :=
  Action.syncWithLeaderCall ::
    ((match syncOutcome with
      | Except.ok _ => []
      | Except.error _ => [Action.logError "Periodic sync failed"]) ++
     [Action.delayCall])

/-- A run of the poll loop through the iterations whose sync outcomes are
listed, in order. -/
def pollLoopRun (outcomes : List (Except String Unit)) : List Action :=
  (outcomes.map pollLoopIteration).flatten

/-- Embedding of the shutdown handler (src/src/index.ts, lines 107-113),
given the settlement of the awaited subscriptions.stop() and
wsTransport.close() calls: the warning log, the stop call with its catch
logging a stop failure, the reconciler stop, the close call with its catch
swallowing any close failure, then process.exit(0). -/
def shutdownTrace (signal : String) (stopOutcome closeOutcome : Except String Unit) :
    List Action :=
  [Action.logWarn ("Received " ++ signal ++ ", shutting down"),
   Action.subscriptionsStopCall] ++
  (match stopOutcome with
   | Except.ok _ => []
   | Except.error _ => [Action.logError "Failed to stop subscriptions cleanly"]) ++
  ([Action.reconcilerStopCall, Action.wsTransportCloseCall] ++
   (match closeOutcome with
    | Except.ok _ => []
    | Except.error _ => []) ++
   [Action.processExit 0])

/-- An environment with only the two required identifiers set. -/
def envValid : Env := fun k =>
  if k = "LEADER_ADDRESS" then some "0xleader"
  else if k = "FOLLOWER_PRIVATE_KEY" then some "0xfkey"
  else none

/-- A valid environment that also sets COPY_RATIO to the negative literal
-2. -/
def envNegCopy : Env := fun k =>
  if k = "LEADER_ADDRESS" then some "0xleader"
  else if k = "FOLLOWER_PRIVATE_KEY" then some "0xfkey"
  else if k = "COPY_RATIO" then some "-2"
  else none

/-- A valid environment that sets both slippage variables to different
values. -/
def envBothSlippage : Env := fun k =>
  if k = "LEADER_ADDRESS" then some "0xleader"
  else if k = "FOLLOWER_PRIVATE_KEY" then some "0xfkey"
  else if k = "MAX_SLIPPAGE_BPS" then some "75"
  else if k = "SLIPPAGE_BPS" then some "30"
  else none

/-- A concrete leader fill event used as test input: a buy of 1 BTC at
50000. -/
def btcFill : FillEvent := { asset := "BTC", signedSize := 1, price := 50000 }

lemma falsyStr_eq_true_iff (v : Option String) :
    falsyStr v = true ↔ v = none ∨ v = some "" := by
  cases v with
  | none => simp [falsyStr]
  | some s => simp [falsyStr]

lemma syncWithLeaderPatched_spec (cfg : CopyTradingConfig)
    (recv : TradeExecutorReceiver) (s : EngineState) :
    (syncWithLeaderPatched cfg recv s).result = Except.ok () ∧
    (syncWithLeaderPatched cfg recv s).finalState = s ∧
    (syncWithLeaderPatched cfg recv s).orders = [] := by
  cases h1 : recv.hasLoggerInfo <;> cases h2 : recv.loggerInfoThrows <;>
    simp [syncWithLeaderPatched, h1, h2]

lemma loadConfig_error_iff (env : Env) :
    (∃ e, loadConfig env = Except.error e) ↔
      (falsyStr (env "LEADER_ADDRESS") = true ∨
       falsyStr (env "FOLLOWER_PRIVATE_KEY") = true) := by
  by_cases h1 : falsyStr (env "LEADER_ADDRESS") = true <;>
    by_cases h2 : falsyStr (env "FOLLOWER_PRIVATE_KEY") = true <;>
    simp [loadConfig, h1, h2]

lemma loadConfig_ok_risk (env : Env) (c : CopyTradingConfig)
    (h : loadConfig env = Except.ok c) :
    c.risk =
      { minPositionUsd := jsNumber ((env "MIN_POSITION_USD").getD "40")
        copyRatio := jsNumber ((env "COPY_RATIO").getD "1")
        maxLeverage := jsNumber ((env "MAX_LEVERAGE").getD "25")
        maxNotionalUsd := jsNumber ((env "MAX_NOTIONAL_USD").getD "1000000")
        inverse := ((env "INVERSE_COPY").getD "false") == "true"
        maxSlippageBps :=
          jsNumber ((env "MAX_SLIPPAGE_BPS").getD
            ((env "SLIPPAGE_BPS").getD "50")) } := by
  unfold loadConfig at h
  by_cases h1 : falsyStr (env "LEADER_ADDRESS") = true
  · simp [h1] at h
  · by_cases h2 : falsyStr (env "FOLLOWER_PRIVATE_KEY") = true
    · simp [h1, h2] at h
    · simp [h1, h2] at h
      subst h
      rfl

/-- C1 counterexample: no loaded configuration makes the patched periodic
sync path trade or touch state — the existential half of the claim, that for
some configuration value syncWithLeader performs corrective trading, is
false. -/
theorem no_configuration_enables_periodic_corrective_trading :
    (∃ (cfg : CopyTradingConfig) (recv : TradeExecutorReceiver) (s : EngineState),
        (syncWithLeaderPatched cfg recv s).orders ≠ [] ∨
        (syncWithLeaderPatched cfg recv s).finalState ≠ s) = False := by
  apply eq_false
  rintro ⟨cfg, recv, s, h | h⟩
  · exact h (syncWithLeaderPatched_spec cfg recv s).2.2
  · exact h (syncWithLeaderPatched_spec cfg recv s).2.1

/-- C1 (amended): after the prototype override the periodic sync path is
fixed to the copy-only mode independently of the loaded configuration — for
every two configurations syncWithLeader behaves identically, and for every
configuration it submits no orders and leaves the state stores unchanged;
no first-class configuration flag selects a drift-correction mode. -/
theorem syncWithLeaderPatched_config_independent_noop
    (cfg cfg2 : CopyTradingConfig) (recv : TradeExecutorReceiver)
    (s : EngineState) :
    syncWithLeaderPatched cfg recv s = syncWithLeaderPatched cfg2 recv s ∧
    (syncWithLeaderPatched cfg recv s).orders = [] ∧
    (syncWithLeaderPatched cfg recv s).finalState = s :=
  ⟨rfl, (syncWithLeaderPatched_spec cfg recv s).2.2,
    (syncWithLeaderPatched_spec cfg recv s).2.1⟩

/-- C2 counterexample: at a concrete BTC fill event, the callback registered
in main neither applies the fill to LeaderState nor triggers a per-asset
sync of BTC — its body is the single call of syncWithLeader. -/
theorem mainFillCallback_not_per_asset_at_btcFill :
    (mainFillCallback btcFill).contains (Action.syncAssetCall "BTC") = false ∧
    (mainFillCallback btcFill).contains (Action.applyFillToLeader "BTC") = false ∧
    mainFillCallback btcFill = [Action.syncWithLeaderCall] :=
  ⟨rfl, rfl, rfl⟩

/-- C2 (amended): for every leader fill event, the caller-supplied callback
registered in main is the zero-parameter closure calling
tradeExecutor.syncWithLeader and nothing else: it does not itself apply the
fill to LeaderState and it calls no per-asset sync; the one method it calls
is the full-account sync method, which the prototype override has made a
no-op. -/
theorem mainFillCallback_only_calls_syncWithLeader (event : FillEvent) :
    mainFillCallback event = [Action.syncWithLeaderCall] ∧
    (∀ a, Action.syncAssetCall a ∉ mainFillCallback event) ∧
    (∀ a, Action.applyFillToLeader a ∉ mainFillCallback event) := by
  refine ⟨rfl, ?_, ?_⟩ <;> intro a <;> simp [mainFillCallback]

/-- C3: after module initialization, every call of the patched
TradeExecutor.syncWithLeader, for every configuration, receiver state and
state stores, resolves successfully with undefined — even when the logging
call throws — and leaves both state stores unchanged and submits no
orders. -/
theorem syncWithLeaderPatched_resolves_noop (cfg : CopyTradingConfig)
    (recv : TradeExecutorReceiver) (s : EngineState) :
    (syncWithLeaderPatched cfg recv s).result = Except.ok () ∧
    (syncWithLeaderPatched cfg recv s).finalState = s ∧
    (syncWithLeaderPatched cfg recv s).orders = [] :=
  syncWithLeaderPatched_spec cfg recv s

/-- C4: loadConfig throws exactly when LEADER_ADDRESS or
FOLLOWER_PRIVATE_KEY is unset or empty; in every other environment it
returns a configuration; and a loadConfig error makes main exit the process
with code 1. -/
theorem loadConfig_fails_iff_required_missing (env : Env) :
    ((∃ e, loadConfig env = Except.error e) ↔
       (env "LEADER_ADDRESS" = none ∨ env "LEADER_ADDRESS" = some "" ∨
        env "FOLLOWER_PRIVATE_KEY" = none ∨
        env "FOLLOWER_PRIVATE_KEY" = some "")) ∧
    ((∀ e, loadConfig env ≠ Except.error e) →
       ∃ c, loadConfig env = Except.ok c) ∧
    (∀ e, loadConfig env = Except.error e →
       mainStartup env = StartupOutcome.exited 1) := by
  refine ⟨?_, ?_, ?_⟩
  · rw [loadConfig_error_iff, falsyStr_eq_true_iff, falsyStr_eq_true_iff]
    tauto
  · intro hne
    cases hh : loadConfig env with
    | ok c => exact ⟨c, rfl⟩
    | error e => exact absurd hh (hne e)
  · intro e he
    simp [mainStartup, he]

/-- C5 counterexample: in a valid environment with COPY_RATIO set to -2,
loadConfig returns a configuration whose copyRatio is negative — the
claimed invariant copyRatio >= 0 fails. -/
theorem copyRatio_negative_for_negative_env :
    (loadConfig envNegCopy).toOption.map
      (fun c => JNum.isNonneg c.risk.copyRatio) = some false := by
  decide

/-- C5 (amended): copyRatio equals the JavaScript numeric value of
COPY_RATIO (defaulting to "1" when unset) and loadConfig enforces no lower
bound, so copyRatio >= 0 holds exactly when that numeric value is
nonnegative — in particular whenever COPY_RATIO is unset. -/
theorem copyRatio_nonneg_when_env_nonneg (env : Env) (c : CopyTradingConfig)
    (h : loadConfig env = Except.ok c)
    (hv : JNum.isNonneg (jsNumber ((env "COPY_RATIO").getD "1")) = true) :
    JNum.isNonneg c.risk.copyRatio = true := by
  rw [loadConfig_ok_risk env c h]
  exact hv

/-- C5 witness: at the valid environment without COPY_RATIO the amended
theorem applies and yields a nonnegative copyRatio. -/
theorem copyRatio_nonneg_when_env_nonneg_witness :
    JNum.isNonneg (((loadConfig envValid).toOption.getD default).risk.copyRatio)
      = true :=
  copyRatio_nonneg_when_env_nonneg envValid
    ((loadConfig envValid).toOption.getD default) (by rfl) (by decide)

/-- C6: a rejection of any syncWithLeader call inside the poll loop never
terminates the process: no iteration emits a process exit, every iteration
ends with the configured delay before the next one, and a rejected sync is
logged by the catch handler. -/
theorem pollLoop_catches_sync_failures (outcomes : List (Except String Unit)) :
    (∀ code, Action.processExit code ∉ pollLoopRun outcomes) ∧
    (∀ o ∈ outcomes,
        Action.delayCall ∈ pollLoopIteration o ∧
        ∀ e, o = Except.error e →
          Action.logError "Periodic sync failed" ∈ pollLoopIteration o) := by
  constructor
  · intro code hmem
    rw [pollLoopRun, List.mem_flatten] at hmem
    rcases hmem with ⟨l, hl, hal⟩
    rcases List.mem_map.mp hl with ⟨o, _, rfl⟩
    cases o <;> simp [pollLoopIteration] at hal
  · intro o _
    constructor
    · cases o <;> simp [pollLoopIteration]
    · intro e he
      subst he
      simp [pollLoopIteration]

/-- C7: on the successful startup path, main awaits exactly one eager
reconciliation pass (reconcileOnce) and it completes before the periodic
reconciliation loop is started with reconciler.start. -/
theorem main_startup_reconciles_once_before_periodic :
    mainStartupCalls.count Action.reconcileOnceCall = 1 ∧
    mainStartupCalls.count Action.reconcilerStartCall = 1 ∧
    mainStartupCalls.indexOf Action.reconcileOnceCall <
      mainStartupCalls.indexOf Action.reconcilerStartCall := by
  decide

/-- C8: for every signal and every settlement of the awaited stop and close
calls, the shutdown handler performs the subscription stop and the transport
close before its process exit, the exit is the last action and happens with
code 0 even when stop fails, and a stop failure is logged. -/
theorem shutdown_stops_subscriptions_before_exit (signal : String)
    (stopOutcome closeOutcome : Except String Unit) :
    (shutdownTrace signal stopOutcome closeOutcome).getLast? =
      some (Action.processExit 0) ∧
    Action.subscriptionsStopCall ∈ shutdownTrace signal stopOutcome closeOutcome ∧
    Action.wsTransportCloseCall ∈ shutdownTrace signal stopOutcome closeOutcome ∧
    ∀ e, stopOutcome = Except.error e →
      Action.logError "Failed to stop subscriptions cleanly" ∈
        shutdownTrace signal stopOutcome closeOutcome := by
  cases stopOutcome with
  | ok u =>
    cases closeOutcome <;>
      exact ⟨rfl, by simp [shutdownTrace], by simp [shutdownTrace],
        fun e he => Except.noConfusion he⟩
  | error msg =>
    cases closeOutcome <;>
      exact ⟨rfl, by simp [shutdownTrace], by simp [shutdownTrace],
        fun e he => by simp [shutdownTrace]⟩

/-- C9: normalizeEnvironment is total and returns "testnet" exactly when the
input is a defined string whose lowercased, trimmed value is "testnet"; on
every other input — undefined, empty, or unrecognized — it returns
"main". -/
theorem normalizeEnvironment_testnet_iff (raw : Option String) :
    (normalizeEnvironment raw = "testnet" ↔
       ∃ s, raw = some s ∧ jsTrim (jsToLower s) = "testnet") ∧
    (normalizeEnvironment raw = "testnet" ∨ normalizeEnvironment raw = "main") := by
  cases raw with
  | none => simp [normalizeEnvironment]
  | some s =>
    by_cases h0 : s = ""
    · subst h0
      simp [normalizeEnvironment]
      decide
    · by_cases h1 : jsTrim (jsToLower s) = "testnet" <;>
        simp [normalizeEnvironment, h0, h1]

/-- C10: the maxSlippageBps field of the loaded risk configuration follows
the fixed precedence MAX_SLIPPAGE_BPS, then SLIPPAGE_BPS, then the default
50 — in particular MAX_SLIPPAGE_BPS wins whenever both variables are set. -/
theorem maxSlippageBps_precedence (env : Env) (c : CopyTradingConfig)
    (h : loadConfig env = Except.ok c) :
    c.risk.maxSlippageBps =
      (match env "MAX_SLIPPAGE_BPS" with
       | some s => jsNumber s
       | none =>
         match env "SLIPPAGE_BPS" with
         | some s => jsNumber s
         | none => JNum.num 50) := by
  rw [loadConfig_ok_risk env c h]
  cases hm : env "MAX_SLIPPAGE_BPS" with
  | some s => simp [hm]
  | none =>
    cases hs : env "SLIPPAGE_BPS" with
    | some s => simp [hm, hs]
    | none =>
      simp [hm, hs]
      decide

/-- C10 witness: at the environment setting MAX_SLIPPAGE_BPS to 75 and
SLIPPAGE_BPS to 30, the theorem applies; the loaded value follows the
precedence (and is the 75 of MAX_SLIPPAGE_BPS). -/
theorem maxSlippageBps_precedence_witness :
    ((loadConfig envBothSlippage).toOption.getD default).risk.maxSlippageBps =
      (match envBothSlippage "MAX_SLIPPAGE_BPS" with
       | some s => jsNumber s
       | none =>
         match envBothSlippage "SLIPPAGE_BPS" with
         | some s => jsNumber s
         | none => JNum.num 50) :=
  maxSlippageBps_precedence envBothSlippage
    ((loadConfig envBothSlippage).toOption.getD default) (by rfl)

end CopyTradingAgent
